import Mathlib

/-!
Shallow embedding of the `Map` class (dynamic-flag setter and constructor) and
of the `Ray` class (constructor defaults and obstacle-free casting) of the
phaser-raycaster library, together with proofs of the specified properties.

Mapped objects are identified by natural numbers.  JavaScript numbers holding
the aggregate counters are modelled as integers (the counters only ever hold
integer values in the code), geometric coordinates as real numbers.
-/

namespace PhaserRaycaster

/-- The `_stats.mappedObjects` record of the parent raycaster:
aggregate counters for the registered mapped objects. -/
structure MappedObjectsStats where
  total : Int
  dynamic : Int
  static : Int
  deriving Repr, DecidableEq

/-- The part of the parent `Raycaster` state touched by `Map`'s `dynamic`
setter: the `dynamicMappedObjects` array and the aggregate counters. -/
structure RaycasterState where
  dynamicMappedObjects : List Nat
  mappedObjects : MappedObjectsStats
  deriving Repr, DecidableEq

/-- The part of a `Map` instance's state touched by the `dynamic` setter:
the private `_dynamic` flag and the reference to the mapped `object`. -/
structure MapState where
  _dynamic : Bool
  object : Nat
  deriving Repr, DecidableEq

/-- A `Map` together with its `_raycaster` reference, which in the source is
either a parent raycaster or `false` (here: `Option`). -/
structure World where
  map : MapState
  _raycaster : Option RaycasterState
  deriving Repr, DecidableEq

/-- `Array.prototype.indexOf` followed by `splice(index, 1)` as used in the
`dynamic` setter: remove the first occurrence of `x` from `l`, or leave `l`
unchanged when `x` does not occur (`indexOf` returns `-1`). -/
def removeFirst (l : List Nat) (x : Nat) : List Nat :=
  match l with
  | [] => []
  | a :: rest => if a = x then rest else a :: removeFirst rest x

/-- The `set dynamic(dynamic)` accessor of `Map.prototype`:
returns immediately when the flag already has the assigned value; otherwise
sets the flag and, when a parent raycaster is attached, pushes the mapped
object to (resp. removes it from) `dynamicMappedObjects` and recomputes the
`dynamic` and `static` counters from the array length and the `total`. -/
def setDynamic (w : World) (d : Bool) : World :=
  if w.map._dynamic = d then w
  else if d then
    let m : MapState := { w.map with _dynamic := true }
    match w._raycaster with
    | none => { w with map := m }
    | some rc =>
      let objs := rc.dynamicMappedObjects ++ [w.map.object]
      let dyn : Int := objs.length
      { map := m
        _raycaster := some
          { dynamicMappedObjects := objs
            mappedObjects :=
              { total := rc.mappedObjects.total
                dynamic := dyn
                static := rc.mappedObjects.total - dyn } } }
  else
    let m : MapState := { w.map with _dynamic := false }
    match w._raycaster with
    | none => { w with map := m }
    | some rc =>
      let objs := removeFirst rc.dynamicMappedObjects w.map.object
      let dyn : Int := objs.length
      { map := m
        _raycaster := some
          { dynamicMappedObjects := objs
            mappedObjects :=
              { total := rc.mappedObjects.total
                dynamic := dyn
                static := rc.mappedObjects.total - dyn } } }

/-- A sequence of assignments to the `dynamic` property, applied in order. -/
def applySeq (w : World) (bs : List Bool) : World :=
  bs.foldl setDynamic w

/-- Number of occurrences of `x` in `l`. -/
def countOcc (l : List Nat) (x : Nat) : Nat :=
  match l with
  | [] => 0
  | a :: rest => (if a = x then 1 else 0) + countOcc rest x

/-- The mapped object occurs in the raycaster's `dynamicMappedObjects` exactly
once when the `_dynamic` flag is set and not at all when it is clear (trivially
true for a map without a parent raycaster).  This holds of a freshly
constructed map (`_dynamic = false`, object not yet registered). -/
def dynInv (w : World) : Prop :=
  match w._raycaster with
  | none => True
  | some rc =>
      countOcc rc.dynamicMappedObjects w.map.object
        = (if w.map._dynamic then 1 else 0)

/-- The fields of a `Map` instance relevant to its construction: the derived
caches are initialised empty, `_dynamic` and `circle` false; `notSupported` is
set by `config` and `updateMap` is instrumented with a call counter. -/
structure MapObj where
  _dynamic : Bool
  circle : Bool
  _points : List (Int × Int)
  _segments : List ((Int × Int) × (Int × Int))
  notSupported : Bool
  updateMapCalls : Nat
  deriving Repr, DecidableEq

/-- The shape kinds the registry accepts. -/
def supportedKinds : List String := ["polygon", "circle", "rectangle", "line-set"]

/-- Modelled from the spec: `config` (the required `./config.js` is not among
the sources) validates the shape type and marks the map `notSupported` when the
shape kind is not one of polygon, circle, rectangle, line-set; it does not
throw (the constructor's `if(!this.notSupported)` guard relies on that). -/
def configShape (kind : String) (m : MapObj) : MapObj :=
  { m with notSupported := !(supportedKinds.contains kind) }

/-- Modelled from the spec: `updateMap` (provided per shape type by `config`,
not among the sources) recomputes the derived caches from the current source
shape; for the claims below only the fact of its invocation matters, so it is
instrumented with a call counter. -/
def updateMap (m : MapObj) : MapObj :=
  { m with updateMapCalls := m.updateMapCalls + 1 }

/-- The `Map` constructor: initialises `_dynamic := false` and the empty
caches, runs `config(options)`, then calls `this.updateMap()` only when the
shape was supported, and returns `this` in every case. -/
def constructMap (kind : String) : MapObj :=
  let m : MapObj :=
    { _dynamic := false, circle := false, _points := [], _segments := []
      notSupported := false, updateMapCalls := 0 }
  let m := configShape kind m
  if m.notSupported then m else updateMap m

/-- `Phaser.Math.MAX_SAFE_INTEGER`, the maximum representable range
(equal to `Number.MAX_SAFE_INTEGER`, i.e. 2^53 - 1). -/
def MAX_SAFE_INTEGER : ℝ := 2 ^ 53 - 1

/-- The fields of a `Ray` instance relevant to the claims below, with the
defaults assigned in the constructor body before `config(options)` runs. -/
structure RayState where
  originX : ℝ
  originY : ℝ
  angle : ℝ
  rayRange : ℝ
  ignoreNotIntersectedRays : Bool

/-- The `Ray` configuration options relevant to the claims below; `none`
models an option the caller did not provide. -/
structure RayOptions where
  angle : Option ℝ
  range : Option ℝ
  ignoreNotIntersectedRays : Option Bool

/-- Modelled from the spec: `config` (the required `./config.js` is not among
the sources) overwrites a ray field with the corresponding option exactly when
the caller provided it, leaving the constructor's default otherwise. -/
def configRay (opts : RayOptions) (r : RayState) : RayState :=
  { r with
    angle := opts.angle.getD r.angle
    rayRange := opts.range.getD r.rayRange
    ignoreNotIntersectedRays :=
      opts.ignoreNotIntersectedRays.getD r.ignoreNotIntersectedRays }

/-- The `Ray` constructor: assigns the documented defaults
(origin `(0,0)`, `angle = 0`, `rayRange = Phaser.Math.MAX_SAFE_INTEGER`,
`ignoreNotIntersectedRays = true`) and then runs `config(options)`. -/
def constructRay (opts : RayOptions) : RayState :=
  configRay opts
    { originX := 0, originY := 0, angle := 0
      rayRange := MAX_SAFE_INTEGER, ignoreNotIntersectedRays := true }

/-- Modelled from the spec: `cast` (the required `./cast.js` is not among the
sources) specialised to an empty collection of mapped objects.  A degenerate
ray (`range ≤ 0`) yields `none` immediately; with no obstacles there is no
hit, so the result is `none` when `ignoreNotIntersectedRays` is set and
otherwise the point at `range` along the ray's `angle` from its origin. -/
noncomputable def castNoObstacles (r : RayState) : Option (ℝ × ℝ) :=
  if r.rayRange ≤ 0 then none
  else if r.ignoreNotIntersectedRays then none
  else some
    (r.originX + r.rayRange * Real.cos r.angle,
     r.originY + r.rayRange * Real.sin r.angle)

/-- Euclidean distance from the ray's origin to a point. -/
noncomputable def distFromOrigin (r : RayState) (p : ℝ × ℝ) : ℝ :=
  Real.sqrt ((p.1 - r.originX) ^ 2 + (p.2 - r.originY) ^ 2)

theorem countOcc_append_singleton (l : List Nat) (x : Nat) :
    countOcc (l ++ [x]) x = countOcc l x + 1 := by
  induction l with
  | nil => simp [countOcc]
  | cons a rest ih => simp [countOcc, ih]; omega

theorem countOcc_removeFirst (l : List Nat) (x : Nat) :
    countOcc (removeFirst l x) x = countOcc l x - 1 := by
  induction l with
  | nil => simp [removeFirst, countOcc]
  | cons a rest ih =>
    by_cases hax : a = x
    · simp [removeFirst, countOcc, hax]
    · simp [removeFirst, countOcc, hax, ih]

theorem mem_iff_countOcc_pos (l : List Nat) (x : Nat) :
    x ∈ l ↔ 0 < countOcc l x := by
  induction l with
  | nil => simp [countOcc]
  | cons a rest ih =>
    by_cases hax : a = x
    · simp [countOcc, hax]
    · simp [countOcc, hax, ih, Ne.symm hax]

theorem removeFirst_append_of_not_mem (l : List Nat) (x : Nat) (h : x ∉ l) :
    removeFirst (l ++ [x]) x = l := by
  induction l with
  | nil => simp [removeFirst]
  | cons a rest ih =>
    simp only [List.mem_cons, not_or] at h
    simp [removeFirst, Ne.symm h.1, ih h.2]

theorem setDynamic_object (w : World) (d : Bool) :
    (setDynamic w d).map.object = w.map.object := by
  obtain ⟨⟨flag, obj⟩, rc⟩ := w
  by_cases heq : flag = d
  · simp [setDynamic, heq]
  · cases rc <;> cases d <;> simp_all [setDynamic]

theorem setDynamic_dynInv (w : World) (d : Bool) (h : dynInv w) :
    dynInv (setDynamic w d) := by
  obtain ⟨⟨flag, obj⟩, rc⟩ := w
  by_cases heq : flag = d
  · simpa [setDynamic, heq] using h
  · cases rc with
    | none => cases d <;> simp_all [setDynamic, dynInv]
    | some rc =>
      cases d with
      | true =>
        have hf : flag = false := by cases flag <;> simp_all
        subst hf
        simp only [dynInv, if_neg Bool.false_ne_true] at h
        simp [setDynamic, dynInv, countOcc_append_singleton, h]
      | false =>
        have hf : flag = true := by cases flag <;> simp_all
        subst hf
        simp only [dynInv, if_pos rfl] at h
        simp [setDynamic, dynInv, countOcc_removeFirst, h]

theorem applySeq_object (w : World) (bs : List Bool) :
    (applySeq w bs).map.object = w.map.object := by
  induction bs generalizing w with
  | nil => rfl
  | cons b rest ih =>
    simpa [applySeq, List.foldl_cons, setDynamic_object]
      using ih (setDynamic w b)

theorem applySeq_dynInv (w : World) (bs : List Bool) (h : dynInv w) :
    dynInv (applySeq w bs) := by
  induction bs generalizing w with
  | nil => exact h
  | cons b rest ih =>
    exact ih (setDynamic w b) (setDynamic_dynInv w b h)

/-- Claim C1: for every map attached to a parent raycaster, starting from a
state with the fresh-map invariant, after any sequence of assignments to the
`dynamic` property the mapped object is in the raycaster's
`dynamicMappedObjects` collection iff the `_dynamic` flag is true; in
particular each single assignment (a one-element sequence) leaves flag and
membership in agreement. -/
theorem dynamic_membership_iff (w : World) (bs : List Bool) (h : dynInv w) :
    ∀ rc, (applySeq w bs)._raycaster = some rc →
      (w.map.object ∈ rc.dynamicMappedObjects
        ↔ (applySeq w bs).map._dynamic = true) := by
  intro rc hrc
  have hinv := applySeq_dynInv w bs h
  have hobj := applySeq_object w bs
  simp only [dynInv, hrc, hobj] at hinv
  constructor
  · intro hmem
    have hpos := (mem_iff_countOcc_pos _ _).mp hmem
    rcases Bool.eq_false_or_eq_true (applySeq w bs).map._dynamic with hd | hd
    · exact hd
    · rw [hd] at hinv
      simp at hinv
      exfalso
      omega
  · intro hd
    rw [hd] at hinv
    simp at hinv
    exact (mem_iff_countOcc_pos _ _).mpr (by omega)

/-- Claim C1 witness: a concrete fresh map toggled dynamic once. -/
theorem dynamic_membership_iff_witness :
    (7 ∈ ([7] : List Nat))
      ↔ ((applySeq ⟨⟨false, 7⟩, some ⟨[], ⟨3, 0, 3⟩⟩⟩ [true]).map._dynamic
          = true) :=
  dynamic_membership_iff ⟨⟨false, 7⟩, some ⟨[], ⟨3, 0, 3⟩⟩⟩ [true]
    rfl ⟨[7], ⟨3, 1, 2⟩⟩ (by decide)

/-- Claim C9: under the same invariant, the raycaster's collection never
contains the map's object twice: after any sequence of `dynamic` assignments
its occurrence count is at most one. -/
theorem dynamic_no_duplicates (w : World) (bs : List Bool) (h : dynInv w) :
    ∀ rc, (applySeq w bs)._raycaster = some rc →
      countOcc rc.dynamicMappedObjects w.map.object ≤ 1 := by
  intro rc hrc
  have hinv := applySeq_dynInv w bs h
  have hobj := applySeq_object w bs
  simp only [dynInv, hrc, hobj] at hinv
  rcases Bool.eq_false_or_eq_true (applySeq w bs).map._dynamic with hd | hd <;>
    rw [hd] at hinv <;> simp at hinv <;> omega

/-- Claim C9 witness: repeated `true` assignments add the object once. -/
theorem dynamic_no_duplicates_witness :
    countOcc [4] 4 ≤ 1 :=
  dynamic_no_duplicates ⟨⟨false, 4⟩, some ⟨[], ⟨1, 0, 1⟩⟩⟩
    [true, true, false, true] rfl ⟨[4], ⟨1, 1, 0⟩⟩ (by decide)

/-- Claim C4: assigning the `dynamic` property its current value is a no-op:
the setter returns immediately and the whole state (flag, collection,
counters) is unchanged. -/
theorem set_dynamic_noop (w : World) :
    setDynamic w w.map._dynamic = w := by
  simp [setDynamic]

/-- Claim C10: on a map without a parent raycaster (`_raycaster` is false),
assigning `dynamic` only updates the `_dynamic` flag: the raycaster reference
stays absent, the object reference is unchanged, and no collection or counter
exists to be touched; the setter is a total function, so it never throws. -/
theorem set_dynamic_without_raycaster (w : World) (b : Bool)
    (h : w._raycaster = none) :
    setDynamic w b = ⟨⟨b, w.map.object⟩, none⟩ := by
  obtain ⟨⟨flag, obj⟩, rc⟩ := w
  simp only at h
  subst h
  by_cases heq : flag = b
  · simp [setDynamic, heq]
  · cases b <;> simp_all [setDynamic]

/-- Claim C10 witness: a detached map set dynamic. -/
theorem set_dynamic_without_raycaster_witness :
    setDynamic ⟨⟨false, 2⟩, none⟩ true = ⟨⟨true, 2⟩, none⟩ :=
  set_dynamic_without_raycaster ⟨⟨false, 2⟩, none⟩ true rfl

/-- Claim C5: after any flag-changing assignment to `dynamic` on a map
attached to a raycaster, the counters are consistent: the dynamic count equals
the length of `dynamicMappedObjects`, the static count equals total minus
dynamic, and hence static plus dynamic equals total. -/
theorem dynamic_setter_counters (m : MapState) (rc0 : RaycasterState)
    (b : Bool) (hne : m._dynamic ≠ b) :
    ∀ rc, (setDynamic ⟨m, some rc0⟩ b)._raycaster = some rc →
      rc.mappedObjects.dynamic = (rc.dynamicMappedObjects.length : Int) ∧
      rc.mappedObjects.static
        = rc.mappedObjects.total - rc.mappedObjects.dynamic ∧
      rc.mappedObjects.static + rc.mappedObjects.dynamic
        = rc.mappedObjects.total := by
  intro rc hrc
  obtain ⟨flag, obj⟩ := m
  simp only at hne
  cases b <;> simp [setDynamic, hne] at hrc <;> subst hrc <;>
    exact ⟨by simp, rfl, by ring⟩

/-- Claim C5 witness: a concrete static-to-dynamic transition. -/
theorem dynamic_setter_counters_witness :
    (1 : Int) = (([5] : List Nat).length : Int) ∧
    (1 : Int) = 2 - 1 ∧ (1 : Int) + 1 = 2 :=
  dynamic_setter_counters ⟨false, 5⟩ ⟨[], ⟨2, 0, 2⟩⟩ true (by decide)
    ⟨[5], ⟨2, 1, 1⟩⟩ (by decide)

/-- Claim C3: on a map attached to a raycaster whose flag is initially false,
whose object is not yet in the collection and whose counters are consistent,
assigning `dynamic = true` then `dynamic = false` restores the static and
dynamic counters to their original values and leaves the object absent from
`dynamicMappedObjects`. -/
theorem toggle_restores_counters (m : MapState) (rc : RaycasterState)
    (hflag : m._dynamic = false)
    (hmem : m.object ∉ rc.dynamicMappedObjects)
    (hdyn : rc.mappedObjects.dynamic = (rc.dynamicMappedObjects.length : Int))
    (hstat : rc.mappedObjects.static
      = rc.mappedObjects.total - rc.mappedObjects.dynamic) :
    ∀ rc', (setDynamic (setDynamic ⟨m, some rc⟩ true) false)._raycaster
        = some rc' →
      rc'.mappedObjects.static = rc.mappedObjects.static ∧
      rc'.mappedObjects.dynamic = rc.mappedObjects.dynamic ∧
      m.object ∉ rc'.dynamicMappedObjects := by
  intro rc' hrc'
  obtain ⟨flag, obj⟩ := m
  simp only at hflag
  subst hflag
  simp [setDynamic, removeFirst_append_of_not_mem _ _ hmem] at hrc'
  subst hrc'
  exact ⟨by rw [hstat, hdyn], hdyn.symm, hmem⟩

/-- Claim C3 witness: a concrete toggle on a raycaster with one other
dynamic object. -/
theorem toggle_restores_counters_witness :
    (1 : Int) = 1 ∧ (1 : Int) = 1 ∧ ¬ (4 ∈ ([9] : List Nat)) :=
  toggle_restores_counters ⟨false, 4⟩ ⟨[9], ⟨2, 1, 1⟩⟩ rfl (by decide)
    (by decide) (by decide) ⟨[9], ⟨2, 1, 1⟩⟩ (by decide)

/-- Claim C6: constructing a map for a supported shape kind invokes
`updateMap` exactly once (deriving the initial caches); for an unsupported
kind `updateMap` is not invoked at construction. -/
theorem construct_updateMap_count (kind : String) :
    (constructMap kind).updateMapCalls
      = if supportedKinds.contains kind then 1 else 0 := by
  by_cases h : kind ∈ supportedKinds <;>
    simp [constructMap, configShape, updateMap, h]

/-- Claim C2 counterexample: registering the unsupported kind "triangle"
does not abort construction and does not surface an error: the constructor
completes and a map object with empty derived caches remains, contradicting
the claim that no partial object is created. -/
theorem unsupported_shape_partial_object :
    constructMap "triangle"
      = { _dynamic := false, circle := false, _points := [], _segments := []
          notSupported := true, updateMapCalls := 0 } := by
  decide

/-- Claim C2 (amended): registering a shape whose kind is not one of
polygon, circle, rectangle, line-set does not raise an error: the `Map`
constructor still completes, marks the object `notSupported`, skips
`updateMap`, and returns the object with its empty derived caches. -/
theorem unsupported_shape_no_abort (kind : String)
    (h : kind ∉ supportedKinds) :
    (constructMap kind).notSupported = true ∧
    (constructMap kind).updateMapCalls = 0 ∧
    (constructMap kind)._points = [] ∧
    (constructMap kind)._segments = [] := by
  simp [constructMap, configShape, updateMap, h]

/-- Claim C2 witness: the amended claim at the concrete kind "triangle". -/
theorem unsupported_shape_no_abort_witness :
    (constructMap "triangle").notSupported = true ∧
    (constructMap "triangle").updateMapCalls = 0 ∧
    (constructMap "triangle")._points = [] ∧
    (constructMap "triangle")._segments = [] :=
  unsupported_shape_no_abort "triangle" (by decide)

/-- Claim C8: a ray constructed without a `range` option has its range equal
to the maximum representable range, `Phaser.Math.MAX_SAFE_INTEGER`. -/
theorem default_ray_range (opts : RayOptions) (h : opts.range = none) :
    (constructRay opts).rayRange = MAX_SAFE_INTEGER := by
  simp [constructRay, configRay, h]

/-- Claim C8 witness: a ray constructed from the empty options object. -/
theorem default_ray_range_witness :
    (constructRay ⟨none, none, none⟩).rayRange = MAX_SAFE_INTEGER :=
  default_ray_range ⟨none, none, none⟩ rfl

/-- Claim C7: for a ray with positive range `R` and no obstacles, `cast`
returns `none` when `ignoreNotIntersectedRays` is true, and otherwise the
point at distance exactly `R` from the origin along the ray's angle. -/
theorem cast_no_obstacles_spec (r : RayState) (h : 0 < r.rayRange) :
    (r.ignoreNotIntersectedRays = true → castNoObstacles r = none) ∧
    (r.ignoreNotIntersectedRays = false →
      castNoObstacles r
          = some (r.originX + r.rayRange * Real.cos r.angle,
                  r.originY + r.rayRange * Real.sin r.angle) ∧
      distFromOrigin r
          (r.originX + r.rayRange * Real.cos r.angle,
           r.originY + r.rayRange * Real.sin r.angle) = r.rayRange) := by
  have hnot : ¬ r.rayRange ≤ 0 := not_le.mpr h
  constructor
  · intro hig
    simp [castNoObstacles, hnot, hig]
  · intro hig
    refine ⟨by simp [castNoObstacles, hnot, hig], ?_⟩
    have hsc := Real.sin_sq_add_cos_sq r.angle
    have hsum :
        (r.originX + r.rayRange * Real.cos r.angle - r.originX) ^ 2 +
          (r.originY + r.rayRange * Real.sin r.angle - r.originY) ^ 2
          = r.rayRange ^ 2 := by
      linear_combination r.rayRange ^ 2 * hsc
    rw [distFromOrigin]
    rw [show ((r.originX + r.rayRange * Real.cos r.angle,
        r.originY + r.rayRange * Real.sin r.angle) : ℝ × ℝ).1
        = r.originX + r.rayRange * Real.cos r.angle from rfl]
    rw [show ((r.originX + r.rayRange * Real.cos r.angle,
        r.originY + r.rayRange * Real.sin r.angle) : ℝ × ℝ).2
        = r.originY + r.rayRange * Real.sin r.angle from rfl]
    rw [hsum]
    exact Real.sqrt_sq h.le

/-- Claim C7 witness: a ray of range 5 at angle 0 with
`ignoreNotIntersectedRays` disabled. -/
theorem cast_no_obstacles_spec_witness :
    castNoObstacles ⟨0, 0, 0, 5, false⟩
        = some (0 + 5 * Real.cos 0, 0 + 5 * Real.sin 0) ∧
    distFromOrigin ⟨0, 0, 0, 5, false⟩
        (0 + 5 * Real.cos 0, 0 + 5 * Real.sin 0) = 5 :=
  (cast_no_obstacles_spec ⟨0, 0, 0, 5, false⟩ (by norm_num)).2 rfl

end PhaserRaycaster
